import Mathlib

/-!
Verification development for the dlm tool-dispatch scripts
(`dlm_BCMtool_call.py` and `dlm_tool_schema.py`).

The Python code is shallowly embedded: dictionaries that the code merely
forwards are modelled by concrete record types, network responses by an
explicit `HttpResponse` record, external collaborators (the HTTP backends
and the completion service) by function parameters, and raised exceptions
by `Except` error values.  `json.dumps` of a JSON value is modelled by
carrying the JSON value itself; the textual rendering is irrelevant to
every property proved here.
-/

set_option autoImplicit false

namespace DlmTools

/-- JSON-like values, the shape of request and response bodies. -/
inductive JVal where
  | jnull
  | jbool (b : Bool)
  | jnum (n : Int)
  | jstr (s : String)
  | jarr (elems : List JVal)
  | jobj (fields : List (String × JVal))

/-- Whether a JSON value is an object carrying the given key. -/
def JVal.hasKey : JVal → String → Bool
  | .jobj fs, k => fs.any (fun p => p.1 == k)
  | _, _ => false

/-- Transport-level failures a backend HTTP call can raise. -/
inductive NetError where
  | timeout
  | connectionRefused
  | tlsFailure
  | other (msg : String)
deriving DecidableEq

/-- Rendering of a transport failure, as interpolated into error messages. -/
def netErrorText : NetError → String
  | .timeout => "timeout"
  | .connectionRefused => "connection refused"
  | .tlsFailure => "TLS failure"
  | .other msg => msg

/-- A received HTTP response: status code, raw text body, and the parse of
the body as JSON (`none` when the body is not valid JSON, in which case a
`.json()` call on the response raises). -/
structure HttpResponse where
  status : Nat
  text : String
  jsonBody : Option JVal

/-! ## Selection-option filter payloads (`search_BCM_Request`) -/

/-- SIGN of a selection option: I = Include, E = Exclude. -/
inductive SelSign where
  | I
  | E
deriving DecidableEq

/-- OPTION of a selection option, the comparison operator
(EQ, GE, LE, BT, NB, CP per the schema). -/
inductive SelOption where
  | EQ
  | GE
  | LE
  | BT
  | NB
  | CP
deriving DecidableEq

/-- One VALUE_SELOP entry: sign, operator, LOW bound and optional HIGH bound. -/
structure SelOpt where
  sign : SelSign
  option : SelOption
  low : String
  high : Option String
deriving DecidableEq

/-- One filter entry: FIELDNAME plus its VALUE_SELOP list. -/
structure FilterCriterion where
  fieldname : String
  value_selop : List SelOpt
deriving DecidableEq

/-- The BCM POST body as documented in `search_BCM_Request`: HEADER_FILTER,
SI_FILTER and the comma-separated output-field strings (the source spells
the keys HEADER_OUT_FEILD / SI_OUT_FEILD). -/
structure BCMPayload where
  header_filter : List FilterCriterion
  si_filter : List FilterCriterion
  header_out_feild : String
  si_out_feild : String
deriving DecidableEq

/-- An outgoing request to the BCM service, as assembled by
`search_BCM_Request`: method, full URL, headers, JSON body, TLS
verification flag, timeout (none when `requests.post` is called without a
timeout argument) and basic-auth credentials. -/
structure BCMRequest where
  method : String
  url : String
  headers : List (String × String)
  body : Option BCMPayload
  verify : Bool
  timeout : Option Nat
  auth : Option (String × String)
deriving DecidableEq

/-- The default `endpoint` argument of `search_BCM_Request`. -/
def BCM_default_endpoint : String :=
  "https://ldciade.wdf.sap.corp:44315/sap/bc/abap/DLMD/BCM_READ_DATA"

/-- The request that `search_BCM_Request` assembles and posts: the endpoint
with the fixed query parameters appended, the three fixed headers, the
payload forwarded as the JSON body, `verify=False`, no timeout, and the
hard-coded basic-auth credentials. -/
def search_BCM_Request (payload : Option BCMPayload) (endpoint : String) : BCMRequest :=
  { method := "POST"
    url := endpoint ++ "?sap-client=200&IS_GENERIC=X"
    headers := [("Accept", "application/json, text/plain, */*"),
                ("Content-Type", "application/json;charset=utf-8"),
                ("X-Requested-With", "XMLHttpRequest")]
    body := payload
    verify := false
    timeout := none
    auth := some ("DLM_BCM", "BCM_dlm@321") }

/-- A backend for the BCM service: maps the issued request to a response or
a raised transport error. -/
abbrev Backend := BCMRequest → Except NetError HttpResponse

/-- One `requests.post` call: returns the backend outcome together with the
single-element trace of requests issued (there is no retry loop). -/
def requests_post (backend : Backend) (req : BCMRequest) :
    Except NetError HttpResponse × List BCMRequest :=
  (backend req, [req])

/-- Running `search_BCM_Request`: builds the request and posts it exactly
once; a transport error propagates (the function body has no handler for
it), and on a response the function returns `resp` unchanged. -/
def search_BCM_Request_call (backend : Backend) (payload : Option BCMPayload)
    (endpoint : String) : Except NetError HttpResponse × List BCMRequest :=
  requests_post backend (search_BCM_Request payload endpoint)

/-! ## Tool schemas (`dlm_tool_schema.py`) -/

/-- The salient content of one function schema dictionary: the advertised
name, description, required parameter names and strict flag. -/
structure FunctionSchema where
  name : String
  description : String
  required : List String
  strict : Bool
deriving DecidableEq

/-- Schema for the flexi report search tool. -/
def get_search_system_flexi_schema : FunctionSchema :=
  { name := "search_system_flexi"
    description := "Query the SLIM Flexi Report API to search SAP system landscape data."
    required := ["query", "otype"]
    strict := true }

/-- Schema for the entity-details tool. -/
def get_entity_details_schema : FunctionSchema :=
  { name := "get_entity_details"
    description := "Fetch entity data from the entityData endpoint for systems and landscapes."
    required := ["entity"]
    strict := true }

/-- The schema list advertised to the model: exactly the flexi search and
entity details schemas. -/
def get_all_schemas : List FunctionSchema :=
  [get_search_system_flexi_schema, get_entity_details_schema]

/-- Schema describing the BCM request tool (defined in the schema module
but not included in `get_all_schemas`). -/
def get_BCM_request_schema : FunctionSchema :=
  { name := "get_BCM_Request"
    description := "Execute a POST call to the BCM service to fetch client request details."
    required := []
    strict := false }

/-! ## Dispatcher and orchestration (`dlm_BCMtool_call.py`, module level) -/

/-- The keyword arguments the dispatcher splats into `search_BCM_Request`. -/
structure BCMArgs where
  payload : Option BCMPayload
  endpoint : String
deriving DecidableEq

/-- `call_function`: dispatches only the name `get_BCM_Request` to
`search_BCM_Request`; every other name falls through and returns `None`.
The pair's second component is the trace of backend requests issued. -/
def call_function (backend : Backend) (name : String) (args : BCMArgs) :
    Except NetError (Option HttpResponse) × List BCMRequest :=
  if name = "get_BCM_Request" then
    match search_BCM_Request_call backend args.payload args.endpoint with
    | (.error e, reqs) => (.error e, reqs)
    | (.ok resp, reqs) => (.ok (some resp), reqs)
  else
    (.ok none, [])

/-- The `function` field of a tool call emitted by the model. -/
structure ToolCallFn where
  name : String
  arguments : BCMArgs
deriving DecidableEq

/-- One tool-call request: correlation id plus the function field. -/
structure ToolCall where
  id : String
  function : ToolCallFn
deriving DecidableEq

/-- One conversation message.  `content` carries the JSON value where the
code stores `json.dumps` of it, or a `jstr` for plain text. -/
structure Message where
  role : String
  content : Option JVal
  name : Option String
  tool_call_id : Option String
  tool_calls : Option (List ToolCall)

/-- Abnormal terminations of the top-level script. -/
inductive RunError where
  /-- a transport error raised by the backend call propagated uncaught -/
  | net (e : NetError)
  /-- AttributeError: accessing `.json()` and then `.text` on the `None`
  returned by `call_function` for an unhandled tool name -/
  | attrNone
deriving DecidableEq

/-- Observable outcome of a completed run: the surfaced final text, the
conversation messages at the end of the run, how many completion calls
were made, and the backend requests issued. -/
structure RunOutcome where
  finalText : Option String
  messages : List Message
  modelCalls : Nat
  backendRequests : List BCMRequest

/-- The system prompt message (text paraphrased; its content is never
inspected by the logic modelled here). -/
def system_message : Message :=
  { role := "system"
    content := some (.jstr "You are a helpful assistant that retrieves BCM Request information.")
    name := none, tool_call_id := none, tool_calls := none }

/-- The initial user message. -/
def user_message : Message :=
  { role := "user"
    content := some (.jstr "show me all the BCM request for the system CCF")
    name := none, tool_call_id := none, tool_calls := none }

/-- The conversation before any tool handling. -/
def base_messages : List Message := [system_message, user_message]

/-- Whether a message is a tool result appended by the orchestration
(role tool in the JSON branch, role function in the fallback branch). -/
def isToolResultRole (m : Message) : Bool :=
  m.role == "tool" || m.role == "function"

/-- The module-level orchestration after the first completion call:
with no tool calls the assistant content is surfaced directly; otherwise
the assistant turn is appended, the argument-extraction loop runs over all
tool calls but only its last bindings survive, a single `call_function`
invocation handles that last call, its result is appended (role tool when
`.json()` parses, role function with the raw text otherwise; the `None`
result of an unhandled name raises), and a second completion call produces
the final text. -/
def runOrchestration (backend : Backend) (firstContent : Option String)
    (tool_calls : List ToolCall) (secondContent : Option String) :
    Except RunError RunOutcome :=
  match tool_calls with
  | [] =>
      .ok { finalText := firstContent
            messages := base_messages
            modelCalls := 1
            backendRequests := [] }
  | t :: ts =>
      let msgs1 := base_messages ++
        [{ role := "assistant", content := none, name := none,
           tool_call_id := none, tool_calls := some (t :: ts) }]
      let lastCall := ts.foldl (fun _ c => c) t
      match call_function backend lastCall.function.name lastCall.function.arguments with
      | (.error e, _) => .error (.net e)
      | (.ok none, _) => .error .attrNone
      | (.ok (some resp), reqs) =>
          let msgs2 :=
            match resp.jsonBody with
            | some j => msgs1 ++
                [{ role := "tool", content := some j, name := none,
                   tool_call_id := some lastCall.id, tool_calls := none }]
            | none => msgs1 ++
                [{ role := "function", content := some (.jstr resp.text),
                   name := some lastCall.function.name,
                   tool_call_id := none, tool_calls := none }]
          .ok { finalText := secondContent
                messages := msgs2
                modelCalls := 2
                backendRequests := reqs }

/-! ## AICockpit helpers (`aicockpit_get_system_details`, `aicockpit_get_sections`) -/

/-- Python truthiness of an optional string argument: `not s` holds for
`None` and for the empty string. -/
def pyTruthyStr : Option String → Bool
  | none => false
  | some s => !s.isEmpty

/-- Python truthiness of an optional list argument. -/
def pyTruthyList : Option (List String) → Bool
  | none => false
  | some l => !l.isEmpty

/-- The JSON body posted to the systemdata endpoint: sysType always, and
sid / objid / sections only when truthy. -/
structure SlimPayload where
  sysType : String
  sid : Option String
  objid : Option String
  sections : Option (List String)
deriving DecidableEq

/-- An outgoing request to the SLIM aicockpit API, as assembled by the two
helper functions (httpx client with `verify=False, timeout=30.0`). -/
structure SlimRequest where
  method : String
  url : String
  headers : List (String × String)
  payload : Option SlimPayload
  verify : Bool
  timeout : Option Nat
deriving DecidableEq

/-- A backend for the SLIM aicockpit API. -/
abbrev SlimBackend := SlimRequest → Except NetError HttpResponse

/-- The fallback base URL used when `base_url is None`. -/
def slim_fallback_base_url : String := "https://dlm/slim/"

/-- The POST request built by `aicockpit_get_system_details` after
validation has passed. -/
def slim_details_request (sid objid : Option String) (sysType : String)
    (sections : Option (List String)) (base_url : Option String) : SlimRequest :=
  { method := "POST"
    url := (base_url.getD slim_fallback_base_url) ++ "/rest/external/aicockpit/systemdata"
    headers := [("Content-Type", "application/json")]
    payload := some
      { sysType := sysType
        sid := if pyTruthyStr sid then sid else none
        objid := if pyTruthyStr objid then objid else none
        sections := if pyTruthyList sections then sections else none }
    verify := false
    timeout := some 30 }

/-- The GET request built by `aicockpit_get_sections`. -/
def slim_sections_request (base_url : Option String) : SlimRequest :=
  { method := "GET"
    url := (base_url.getD slim_fallback_base_url) ++ "/rest/external/aicockpit/sections"
    headers := [("Content-Type", "application/json")]
    payload := none
    verify := false
    timeout := some 30 }

/-- The error JSON returned when neither sid nor objid is supplied (the
source message quotes the two parameter names). -/
def slim_validation_error_json : JVal :=
  .jobj [("error", .jstr "Either sid or objid parameter is required"),
         ("step", .jstr "validation")]

/-- The `try` block of `aicockpit_get_system_details`: an early successful
return of the validation-error JSON when neither identifier is truthy;
otherwise one POST whose transport errors, non-2xx statuses
(`raise_for_status`) and JSON-decode failures all raise, modelled as
`.error` with the exception text.  The second component is the trace of
requests issued. -/
def aicockpit_get_system_details_try (backend : SlimBackend) (sid objid : Option String)
    (sysType : String) (sections : Option (List String)) (base_url : Option String) :
    Except String JVal × List SlimRequest :=
  if (!pyTruthyStr sid) && (!pyTruthyStr objid) then
    (.ok slim_validation_error_json, [])
  else
    let req := slim_details_request sid objid sysType sections base_url
    match backend req with
    | .error e => (.error (netErrorText e), [req])
    | .ok resp =>
        if 400 ≤ resp.status ∧ resp.status < 600 then
          (.error ("HTTP status error " ++ toString resp.status), [req])
        else
          match resp.jsonBody with
          | none => (.error "response body is not valid JSON", [req])
          | some j => (.ok j, [req])

/-- `aicockpit_get_system_details`: the whole body sits in `try/except
Exception`, so every raised exception becomes the returned error JSON with
step `fetch_system_data`; the function always returns a JSON value. -/
def aicockpit_get_system_details (backend : SlimBackend) (sid objid : Option String)
    (sysType : String) (sections : Option (List String)) (base_url : Option String) :
    JVal × List SlimRequest :=
  let r := aicockpit_get_system_details_try backend sid objid sysType sections base_url
  (match r.1 with
   | .ok j => j
   | .error msg =>
       .jobj [("error", .jstr ("Error in aicockpit_get_system_details: " ++ msg)),
              ("step", .jstr "fetch_system_data")],
   r.2)

/-- The `try` block of `aicockpit_get_sections`: one GET; transport errors,
`raise_for_status` and JSON-decode failures raise, and so does the
`result.get` access in the success log line when the parsed body is not an
object (an AttributeError). -/
def aicockpit_get_sections_try (backend : SlimBackend) (base_url : Option String) :
    Except String JVal × List SlimRequest :=
  let req := slim_sections_request base_url
  match backend req with
  | .error e => (.error (netErrorText e), [req])
  | .ok resp =>
      if 400 ≤ resp.status ∧ resp.status < 600 then
        (.error ("HTTP status error " ++ toString resp.status), [req])
      else
        match resp.jsonBody with
        | none => (.error "response body is not valid JSON", [req])
        | some (.jobj fs) => (.ok (.jobj fs), [req])
        | some _ => (.error "result has no attribute get", [req])

/-- `aicockpit_get_sections`: the whole body sits in `try/except
Exception`, producing the error JSON with step `fetch_sections` on any
raised exception. -/
def aicockpit_get_sections (backend : SlimBackend) (base_url : Option String) :
    JVal × List SlimRequest :=
  let r := aicockpit_get_sections_try backend base_url
  (match r.1 with
   | .ok j => j
   | .error msg =>
       .jobj [("error", .jstr ("Error in aicockpit_get_sections: " ++ msg)),
              ("step", .jstr "fetch_sections")],
   r.2)

/-! ## Spec-side definitions and small utilities -/

/-- Modelled from the spec (testable properties section): a selection
option is consistent when its operator is BT or NB exactly if a high bound
is present.  This follows the spec text; the source performs no such
check. -/
def specHighConsistent (o : SelOpt) : Bool :=
  ((o.option == SelOption.BT) || (o.option == SelOption.NB)) == o.high.isSome

/-- Splitting a comma-separated string, accumulator-based helper. -/
def splitCommaAux : List Char → List Char → List String
  | acc, [] => [String.mk acc.reverse]
  | acc, c :: cs =>
      if c = ',' then String.mk acc.reverse :: splitCommaAux [] cs
      else splitCommaAux (c :: acc) cs

/-- Splitting a comma-separated output-field string into the field list
the backend sees. -/
def splitComma (s : String) : List String := splitCommaAux [] s.data

/-- Deduplication preserving first-seen order, as the spec describes for
output-field lists (accumulator of names already seen). -/
def dedupFirstSeenAux (seen : List String) : List String → List String
  | [] => []
  | x :: xs =>
      if x ∈ seen then dedupFirstSeenAux seen xs
      else x :: dedupFirstSeenAux (x :: seen) xs

/-- Modelled from the spec: output-field deduplication preserving
first-seen order. -/
def dedupFirstSeen (l : List String) : List String := dedupFirstSeenAux [] l

/-- An error descriptor in the sense of the helper functions: a JSON
object carrying both an error key and a step key. -/
def isErrorDescriptor (j : JVal) : Bool :=
  j.hasKey "error" && j.hasKey "step"

/-- A stub successful backend response. -/
def okStubResponse : HttpResponse :=
  { status := 200, text := "ok", jsonBody := some (.jobj []) }

/-- A stub BCM backend that always answers with `okStubResponse`. -/
def okStubBackend : Backend := fun _ => .ok okStubResponse

/-- Helper: a tool call with the given correlation id, tool name and
arguments. -/
def mkToolCall (i n : String) (args : BCMArgs) : ToolCall :=
  { id := i, function := { name := n, arguments := args } }

/-- Helper: dispatcher arguments with no payload and the default endpoint. -/
def noPayloadArgs : BCMArgs :=
  { payload := none, endpoint := BCM_default_endpoint }

/-! ## Claim theorems -/

/-- C6: for a first model response with zero tool-call requests, the run
finishes after the single completion call, issues no backend request, and
surfaces the first response's assistant content as the final text. -/
theorem c6_zero_tool_calls_done_directly (backend : Backend)
    (firstContent secondContent : Option String) :
    runOrchestration backend firstContent [] secondContent
      = .ok { finalText := firstContent
              messages := base_messages
              modelCalls := 1
              backendRequests := [] } := rfl

/-- C3: the advertised schema list names exactly `search_system_flexi` and
`get_entity_details`; `call_function` returns `None` (and issues no
backend request) for every advertised name, never returns `None` for
`get_BCM_Request`, and that only dispatched name is absent from the
advertised list. -/
theorem c3_advertised_names_never_dispatch :
    get_all_schemas.map FunctionSchema.name = ["search_system_flexi", "get_entity_details"]
    ∧ "get_BCM_Request" ∉ get_all_schemas.map FunctionSchema.name
    ∧ (∀ n, n ∈ get_all_schemas.map FunctionSchema.name →
        ∀ backend args, call_function backend n args = (.ok none, []))
    ∧ (∀ backend args, (call_function backend "get_BCM_Request" args).1 ≠ .ok none)
    ∧ (∀ args, (call_function okStubBackend "get_BCM_Request" args).1
        = .ok (some okStubResponse)) := by
  refine ⟨rfl, by decide, ?_, ?_, ?_⟩
  · intro n hn backend args
    have hn' : n = "search_system_flexi" ∨ n = "get_entity_details" := by
      simpa [get_all_schemas, get_search_system_flexi_schema,
        get_entity_details_schema] using hn
    rcases hn' with h | h <;> subst h <;> rfl
  · intro backend args
    cases hb : backend (search_BCM_Request args.payload args.endpoint) <;>
      simp [call_function, search_BCM_Request_call, requests_post, hb]
  · intro args
    rfl

/-- C3 witness: instantiating the advertised-name property at
`search_system_flexi` with the stub backend. -/
theorem c3_advertised_names_never_dispatch_witness :
    "search_system_flexi" ∈ get_all_schemas.map FunctionSchema.name
    ∧ call_function okStubBackend "search_system_flexi" noPayloadArgs = (.ok none, []) := by
  refine ⟨by decide, ?_⟩
  exact c3_advertised_names_never_dispatch.2.2.1 "search_system_flexi" (by decide)
    okStubBackend noPayloadArgs

/-- C1: the model response carries two tool-call requests, but the
orchestration appends exactly one tool-result message — correlated to the
second (last) request only — and issues exactly one backend request before
the follow-up completion call: the invocation sits after the
argument-extraction loop, so only the last request is executed. -/
theorem c1_two_requests_one_result :
    ∃ out,
      runOrchestration okStubBackend (some "first")
        [mkToolCall "call_1" "get_BCM_Request" noPayloadArgs,
         mkToolCall "call_2" "get_BCM_Request" noPayloadArgs]
        (some "final") = .ok out
      ∧ (out.messages.filter isToolResultRole).length = 1
      ∧ (out.messages.filter isToolResultRole).map Message.tool_call_id = [some "call_2"]
      ∧ out.backendRequests.length = 1 := by
  refine ⟨_, rfl, rfl, rfl, rfl⟩

/-- C4 counterexample: with the unknown tool name `get_unknown_thing` the
run does not reach a final answer: `call_function` returns `None` and the
result-handling step then raises on that `None`, aborting the run instead
of appending an UnknownTool failure result. -/
theorem c4_unknown_tool_aborts :
    runOrchestration okStubBackend (some "first")
      [mkToolCall "call_1" "get_unknown_thing" noPayloadArgs]
      (some "final") = .error RunError.attrNone := rfl

/-- C4 amended: for every tool name other than `get_BCM_Request`,
`call_function` returns `None` without raising at that boundary, and the
orchestration then aborts with an attribute error on the `None` result:
no UnknownTool-tagged failure result is appended and the run does not
reach a final answer. -/
theorem c4_unknown_name_returns_none_then_crash (n : String)
    (h : n ≠ "get_BCM_Request") (backend : Backend) (args : BCMArgs) (i : String)
    (firstContent secondContent : Option String) :
    call_function backend n args = (.ok none, [])
    ∧ runOrchestration backend firstContent
        [mkToolCall i n args] secondContent
      = .error RunError.attrNone := by
  constructor
  · simp [call_function, h]
  · simp [runOrchestration, mkToolCall, call_function, h]

/-- C4 witness: the amended behaviour evaluated at the concrete name
`get_unknown_thing`. -/
theorem c4_unknown_name_returns_none_then_crash_witness :
    call_function okStubBackend "get_unknown_thing" noPayloadArgs = (.ok none, [])
    ∧ runOrchestration okStubBackend (some "hello")
        [mkToolCall "call_9" "get_unknown_thing" noPayloadArgs]
        (some "bye")
      = .error RunError.attrNone :=
  c4_unknown_name_returns_none_then_crash "get_unknown_thing" (by decide)
    okStubBackend noPayloadArgs "call_9" (some "hello") (some "bye")

/-- C5 counterexample: a backend timeout during the BCM call is not
converted into a BackendUnavailable failure result: the run aborts with
the propagated transport error instead of reaching a final answer. -/
theorem c5_timeout_aborts_run :
    runOrchestration (fun _ => .error NetError.timeout) (some "first")
      [mkToolCall "call_1" "get_BCM_Request" noPayloadArgs]
      (some "final") = .error (RunError.net NetError.timeout) := rfl

/-- C5 amended: every transport failure in the BCM backend call propagates
uncaught through `call_function` and aborts the run before any tool result
is appended or a final answer is produced; by contrast the aicockpit
helper — which the dispatcher never invokes — catches transport failures
and returns an error-descriptor JSON with step `fetch_system_data`, not a
BackendUnavailable-tagged tool result. -/
theorem c5_transport_failure_propagates (e : NetError) (args : BCMArgs) (i : String)
    (firstContent secondContent : Option String) :
    (call_function (fun _ => .error e) "get_BCM_Request" args).1 = .error e
    ∧ runOrchestration (fun _ => .error e) firstContent
        [mkToolCall i "get_BCM_Request" args]
        secondContent
      = .error (RunError.net e)
    ∧ (aicockpit_get_system_details (fun _ => .error e) (some "CCF") none
        "ABAPSystem" none none).1
      = .jobj [("error", .jstr ("Error in aicockpit_get_system_details: " ++ netErrorText e)),
               ("step", .jstr "fetch_system_data")] :=
  ⟨rfl, rfl, rfl⟩

/-- Concrete payload for scenario C of the spec: operator EQ on field
REQUEST_ID together with a high bound. -/
def c2_scenarioC_selopt : SelOpt :=
  { sign := .I, option := .EQ, low := "A", high := some "Z" }

/-- Concrete filter payload containing the scenario C selection option. -/
def c2_scenarioC_payload : BCMPayload :=
  { header_filter := [{ fieldname := "REQUEST_ID", value_selop := [c2_scenarioC_selopt] }]
    si_filter := []
    header_out_feild := "REQUEST_ID"
    si_out_feild := "" }

/-- C2 counterexample: the scenario C input (operator EQ with a high bound
present) violates the spec invariant, yet `search_BCM_Request` issues the
network request with the payload forwarded verbatim — the violating
selection option included — instead of rejecting it with a
ValidationError before the network call. -/
theorem c2_violation_forwarded_to_network :
    specHighConsistent c2_scenarioC_selopt = false
    ∧ (search_BCM_Request_call okStubBackend (some c2_scenarioC_payload)
        BCM_default_endpoint).2
      = [search_BCM_Request (some c2_scenarioC_payload) BCM_default_endpoint]
    ∧ (search_BCM_Request (some c2_scenarioC_payload) BCM_default_endpoint).body
      = some c2_scenarioC_payload :=
  ⟨rfl, rfl, rfl⟩

/-- C2 amended: the code performs no operator/high validation at all: for
every payload, consistent or not, exactly one network request is issued
and its body is the payload unchanged; no ValidationError path exists
between argument intake and the network call. -/
theorem c2_no_validation_everything_forwarded (p : Option BCMPayload)
    (endpoint : String) (backend : Backend) :
    (search_BCM_Request_call backend p endpoint).2 = [search_BCM_Request p endpoint]
    ∧ (search_BCM_Request p endpoint).body = p :=
  ⟨rfl, rfl⟩

/-- Concrete payload whose header output-field string repeats REQUEST_ID. -/
def c7_dup_payload : BCMPayload :=
  { header_filter := []
    si_filter := []
    header_out_feild := "REQUEST_ID,TA_SID,REQUEST_ID"
    si_out_feild := "" }

/-- C7 counterexample: an output-field list with a duplicate is forwarded
verbatim: the constructed request body keeps the duplicated field, so the
field list the backend sees is not duplicate-free and differs from its
first-seen-order deduplication. -/
theorem c7_duplicate_out_field_forwarded :
    ((search_BCM_Request (some c7_dup_payload) BCM_default_endpoint).body.map
        (fun q => splitComma q.header_out_feild))
      = some ["REQUEST_ID", "TA_SID", "REQUEST_ID"]
    ∧ ¬ (["REQUEST_ID", "TA_SID", "REQUEST_ID"] : List String).Nodup
    ∧ dedupFirstSeen ["REQUEST_ID", "TA_SID", "REQUEST_ID"]
        ≠ ["REQUEST_ID", "TA_SID", "REQUEST_ID"] := by
  refine ⟨rfl, by decide, by decide⟩

/-- C7 amended: output-field lists are never deduplicated: for every
payload the forwarded request body carries both output-field strings
exactly as given, so the field sequence the backend receives is the comma
split of the input, duplicates included. -/
theorem c7_out_fields_forwarded_verbatim (p : BCMPayload) (endpoint : String) :
    ((search_BCM_Request (some p) endpoint).body.map
        (fun q => splitComma q.header_out_feild))
      = some (splitComma p.header_out_feild)
    ∧ ((search_BCM_Request (some p) endpoint).body.map
        (fun q => splitComma q.si_out_feild))
      = some (splitComma p.si_out_feild) :=
  ⟨rfl, rfl⟩

/-- Helper: the systemdata lookup issues at most one request, always with
the 30-unit timeout. -/
theorem slim_details_try_trace (backend : SlimBackend) (sid objid : Option String)
    (sysType : String) (sections : Option (List String)) (base_url : Option String) :
    ((aicockpit_get_system_details_try backend sid objid sysType sections base_url).2.all
        (fun r => r.timeout == some 30)) = true
    ∧ (aicockpit_get_system_details_try backend sid objid sysType sections base_url).2.length
        ≤ 1 := by
  unfold aicockpit_get_system_details_try
  by_cases hval : ((!pyTruthyStr sid) && (!pyTruthyStr objid)) = true
  · simp [hval]
  · rw [if_neg hval]
    cases hb : backend (slim_details_request sid objid sysType sections base_url) with
    | error e =>
        simp only [hb]
        simp [slim_details_request]
    | ok resp =>
        simp only [hb]
        by_cases hs : 400 ≤ resp.status ∧ resp.status < 600
        · rw [if_pos hs]
          simp [slim_details_request]
        · rw [if_neg hs]
          cases hj : resp.jsonBody <;> simp [slim_details_request]

/-- Helper: the sections lookup issues exactly one request, always with
the 30-unit timeout. -/
theorem slim_sections_try_trace (backend : SlimBackend) (base_url : Option String) :
    ((aicockpit_get_sections_try backend base_url).2.all
        (fun r => r.timeout == some 30)) = true
    ∧ (aicockpit_get_sections_try backend base_url).2.length = 1 := by
  unfold aicockpit_get_sections_try
  cases hb : backend (slim_sections_request base_url) with
  | error e =>
      simp only [hb]
      simp [slim_sections_request]
  | ok resp =>
      simp only [hb]
      by_cases hs : 400 ≤ resp.status ∧ resp.status < 600
      · rw [if_pos hs]
        simp [slim_sections_request]
      · rw [if_neg hs]
        cases hj : resp.jsonBody with
        | none => simp [slim_sections_request]
        | some j => cases j <;> simp [slim_sections_request]

/-- C8 counterexample: the BCM search request is issued with no timeout at
all, so not every backend call carries the 30-unit bound. -/
theorem c8_bcm_request_has_no_timeout :
    (search_BCM_Request none BCM_default_endpoint).timeout = none := rfl

/-- C8 amended: the two aicockpit calls are constructed with a 30-unit
timeout and each function issues at most one request per invocation with
no retry; the BCM search call is likewise issued exactly once with no
retry, but carries no timeout. -/
theorem c8_timeouts_and_no_retry (backend : SlimBackend) (bcmBackend : Backend)
    (sid objid : Option String) (sysType : String) (sections : Option (List String))
    (base_url burl : Option String) (p : Option BCMPayload) (endpoint : String) :
    ((aicockpit_get_system_details backend sid objid sysType sections base_url).2.all
        (fun r => r.timeout == some 30)) = true
    ∧ (aicockpit_get_system_details backend sid objid sysType sections base_url).2.length ≤ 1
    ∧ ((aicockpit_get_sections backend burl).2.all
        (fun r => r.timeout == some 30)) = true
    ∧ (aicockpit_get_sections backend burl).2.length = 1
    ∧ (search_BCM_Request_call bcmBackend p endpoint).2.length = 1
    ∧ (search_BCM_Request p endpoint).timeout = none := by
  exact ⟨(slim_details_try_trace backend sid objid sysType sections base_url).1,
    (slim_details_try_trace backend sid objid sysType sections base_url).2,
    (slim_sections_try_trace backend burl).1,
    (slim_sections_try_trace backend burl).2, rfl, rfl⟩

/-- C9: when neither sid nor objid is supplied (each absent or empty), the
system-detail lookup returns the validation error descriptor whose step
field names the validation step, and issues no network request. -/
theorem c9_missing_identifiers_no_network (backend : SlimBackend) (sysType : String)
    (sections : Option (List String)) (base_url : Option String)
    (sid objid : Option String)
    (hsid : pyTruthyStr sid = false) (hobjid : pyTruthyStr objid = false) :
    (aicockpit_get_system_details backend sid objid sysType sections base_url).1
      = slim_validation_error_json
    ∧ (aicockpit_get_system_details backend sid objid sysType sections base_url).2 = [] := by
  constructor <;>
    simp [aicockpit_get_system_details, aicockpit_get_system_details_try, hsid, hobjid]

/-- C9 witness: the lookup with both identifiers missing, against a
backend that would time out if it were ever reached. -/
theorem c9_missing_identifiers_no_network_witness :
    pyTruthyStr none = false
    ∧ ((aicockpit_get_system_details (fun _ => .error NetError.timeout)
          none none "ABAPSystem" none none).1 = slim_validation_error_json
       ∧ (aicockpit_get_system_details (fun _ => .error NetError.timeout)
            none none "ABAPSystem" none none).2 = []) :=
  ⟨rfl, c9_missing_identifiers_no_network (fun _ => .error NetError.timeout)
    "ABAPSystem" none none none none rfl rfl⟩

/-- C10: both aicockpit helpers are total over every backend behaviour:
the returned value is either the JSON body the backend delivered or an
error-descriptor object carrying both an error key and a step key; no
exception escapes their boundary. -/
theorem c10_helpers_total_json_or_error_descriptor (backend : SlimBackend)
    (sid objid : Option String) (sysType : String) (sections : Option (List String))
    (base_url burl : Option String) :
    (isErrorDescriptor
        (aicockpit_get_system_details backend sid objid sysType sections base_url).1 = true
      ∨ ∃ resp req, backend req = .ok resp
          ∧ resp.jsonBody
            = some (aicockpit_get_system_details backend sid objid sysType sections base_url).1)
    ∧ (isErrorDescriptor (aicockpit_get_sections backend burl).1 = true
      ∨ ∃ resp req, backend req = .ok resp
          ∧ resp.jsonBody = some (aicockpit_get_sections backend burl).1) := by
  constructor
  · unfold aicockpit_get_system_details aicockpit_get_system_details_try
    by_cases hval : ((!pyTruthyStr sid) && (!pyTruthyStr objid)) = true
    · left
      simp [hval, slim_validation_error_json, isErrorDescriptor, JVal.hasKey]
    · simp only [hval, if_false, Bool.not_eq_true] at *
      cases hb : backend (slim_details_request sid objid sysType sections base_url) with
      | error e => left; simp [hval, hb, isErrorDescriptor, JVal.hasKey]
      | ok resp =>
          by_cases hs : 400 ≤ resp.status ∧ resp.status < 600
          · left; simp [hval, hb, hs, isErrorDescriptor, JVal.hasKey]
          · cases hj : resp.jsonBody with
            | none => left; simp [hval, hb, hs, hj, isErrorDescriptor, JVal.hasKey]
            | some j =>
                right
                exact ⟨resp, slim_details_request sid objid sysType sections base_url,
                  hb, by simp [hval, hb, hs, hj]⟩
  · unfold aicockpit_get_sections aicockpit_get_sections_try
    cases hb : backend (slim_sections_request burl) with
    | error e => left; simp [hb, isErrorDescriptor, JVal.hasKey]
    | ok resp =>
        by_cases hs : 400 ≤ resp.status ∧ resp.status < 600
        · left; simp [hb, hs, isErrorDescriptor, JVal.hasKey]
        · cases hj : resp.jsonBody with
          | none => left; simp [hb, hs, hj, isErrorDescriptor, JVal.hasKey]
          | some j =>
              cases j with
              | jobj fs =>
                  right
                  exact ⟨resp, slim_sections_request burl, hb, by simp [hb, hs, hj]⟩
              | jnull => left; simp [hb, hs, hj, isErrorDescriptor, JVal.hasKey]
              | jbool b => left; simp [hb, hs, hj, isErrorDescriptor, JVal.hasKey]
              | jnum n => left; simp [hb, hs, hj, isErrorDescriptor, JVal.hasKey]
              | jstr t => left; simp [hb, hs, hj, isErrorDescriptor, JVal.hasKey]
              | jarr xs => left; simp [hb, hs, hj, isErrorDescriptor, JVal.hasKey]

end DlmTools
